import Mathlib

/-!
Verification development for the vertex-ai-chatbot conversation workflow engine.

Shallow embedding of the Python source:
  * `src/chatbot/message_classifier.py` — `MessageClassifier.classify_message`
  * `src/chatbot/llama_helper.py`       — `check_for_completion_keywords`
  * `src/chatbot/whatssms_service.py`   — `normalize_to_e164`,
    `get_or_create_conversation`, `save_conversation`,
    `handle_incoming_message`, `format_conversation_summary`, `notify_team`

Python strings are modelled as Lean `String` (sequences of characters,
ASCII-faithful for the character classes the code uses); `datetime` values as
`Nat` instants passed in explicitly; the MongoDB collection as a partial map
`String → Option WhatsAppConversation` keyed by `_id`; external collaborators
(LLM completion, WhatsApp delivery, team notification) as explicit parameters
recording their outcomes.
-/

/-! ### Python string primitives -/

/-- Python `s.lower()` (ASCII case mapping, which covers every character the
classifier patterns and keyword lists use). -/
def pyLower (s : String) : String := String.mk (s.toList.map Char.toLower)

/-- A Python `str.isspace` character (the ASCII whitespace set). -/
def pyIsSpace (c : Char) : Bool :=
  c == ' ' || c == '\t' || c == '\n' || c == '\r' || c == '\x0b' || c == '\x0c'

/-- Python `s.strip()`: drop whitespace from both ends. -/
def pyStrip (s : String) : String :=
  String.mk ((((s.toList.dropWhile pyIsSpace).reverse).dropWhile pyIsSpace).reverse)

/-- Python truthiness of an optional string: `None` and `""` are falsy.
Models `not conversation.client_name` / `if client_name:` checks. -/
def pyTruthy : Option String → Bool
  | none => false
  | some s => !(s == "")

/-- Python `str(x)` on an `Optional[str]` as an f-string renders `None` for
the missing case. -/
def pyOptStr : Option String → String
  | none => "None"
  | some s => s

/-- Python `role.title()` restricted to the ASCII words the code feeds it:
upper-case the first letter of each whitespace-separated word, lower-case the
rest. -/
def pyTitleChars (afterWord : Bool) : List Char → List Char
  | [] => []
  | c :: t =>
      if c.isAlpha then
        (if afterWord then c.toLower else c.toUpper) :: pyTitleChars true t
      else
        c :: pyTitleChars false t

/-- Python `s.title()`. -/
def pyTitle (s : String) : String := String.mk (pyTitleChars false s.toList)

/-- Membership test `needle in hay` of Python (contiguous substring). -/
def listContainsSub (n : List Char) : List Char → Bool
  | [] => n.isPrefixOf []
  | c :: t => n.isPrefixOf (c :: t) || listContainsSub n t

/-- Python `needle in hay` on strings. -/
def pyIn (needle hay : String) : Bool := listContainsSub needle.toList hay.toList

/-! ### Regex word-boundary matching (`re.search(r'\b(w1|w2|...)\b', m)`)

Every alternative in the classifier's patterns begins and ends with a letter,
so the `\b` anchors reduce to: the character before the occurrence (if any)
is not a word character, and the character after it (if any) is not a word
character.  Word characters are `[A-Za-z0-9_]` as in `re.\w` (ASCII). -/

/-- A regex word character. -/
def isWordChar (c : Char) : Bool := c.isAlphanum || c == '_'

/-- Boundary on the left of a candidate occurrence: start of string or a
non-word character just before. -/
def okBefore : Option Char → Bool
  | none => true
  | some c => !isWordChar c

/-- Boundary on the right: end of string or a non-word character right after
the matched phrase. -/
def okAfter : List Char → Bool
  | [] => true
  | c :: _ => !isWordChar c

/-- The phrase `w` occurs at the head of `rest` with a right word boundary. -/
def wbHere (w rest : List Char) : Bool :=
  w.isPrefixOf rest && okAfter (rest.drop w.length)

/-- Scan for an occurrence of `w` with word boundaries on both sides,
remembering the previous character. -/
def wbSearchFrom (w : List Char) (prev : Option Char) : List Char → Bool
  | [] => okBefore prev && wbHere w []
  | c :: t => (okBefore prev && wbHere w (c :: t)) || wbSearchFrom w (some c) t

/-- `re.search(r'\b(...)\b', m)` for an alternation of literal phrases. -/
def regexWordMatch (phrases : List String) (m : String) : Bool :=
  phrases.any (fun w => wbSearchFrom w.toList none m.toList)

/-! ### Message classifier (`message_classifier.py`) -/

/-- Alternatives of `MessageClassifier.pricing_patterns` (four alternation
regexes, flattened). -/
def pricing_phrases : List String :=
  ["price", "cost", "budget", "expensive", "cheap", "affordable",
   "how much", "pricing", "quote", "estimate", "fee", "charge",
   "payment", "money", "dollar", "rupee", "costs",
   "rate", "rates", "tariff", "tariffs"]

/-- Alternatives of `MessageClassifier.support_patterns`. -/
def support_phrases : List String :=
  ["help", "support", "issue", "problem", "error", "bug", "fix",
   "not working", "broken", "down", "trouble", "difficulty",
   "how to", "how do", "tutorial", "guide", "instructions",
   "complaint", "complaints", "dissatisfied", "unhappy"]

/-- Alternatives of `MessageClassifier.general_patterns`. -/
def general_phrases : List String :=
  ["thank", "thanks", "appreciate", "grateful",
   "information", "info", "details", "more",
   "contact", "reach", "get in touch"]

/-- The narrowed greeting alternation used inside `classify_message` (only the
word list, not the `^[a-z\s]*$` pattern, is consulted there). -/
def greeting_phrases : List String :=
  ["hello", "hi", "hey", "good morning", "good afternoon", "good evening"]

/-- Transient classification result `{type, response, confidence}`.
The source's confidences are the exact decimal floats 0.9, 0.8, 0.7, 0.5; we
carry them scaled by ten as naturals (0.9 ↦ 9), which is exact and preserves
the only operation performed on them, the order comparison against the 0.8
threshold (↦ 8). -/
structure ClassificationResult where
  type : String
  response : String
  confidence : Nat
  deriving DecidableEq, Repr

def pricing_result : ClassificationResult :=
  { type := "pricing"
    response := "Our pricing starts from $99. Would you like the full details?"
    confidence := 9 }

def support_result : ClassificationResult :=
  { type := "support"
    response := "I'm here to help. Could you share more details about the issue?"
    confidence := 8 }

def general_result : ClassificationResult :=
  { type := "general"
    response := "Thanks for your message! Our team will respond shortly."
    confidence := 7 }

def greeting_result : ClassificationResult :=
  { type := "greeting"
    response := "Hello 👋 How can I help you today?"
    confidence := 9 }

def other_result : ClassificationResult :=
  { type := "other"
    response := "Thanks for your message! Our team will respond shortly."
    confidence := 5 }

/-- `MessageClassifier.classify_message`: lower-case and strip the input, then
test the pattern groups in source order — pricing, support, general, the
narrowed greeting list — first match winning; otherwise the default result. -/
def classify_message (message : String) : ClassificationResult :=
  let message_lower := pyStrip (pyLower message)
  if regexWordMatch pricing_phrases message_lower then pricing_result
  else if regexWordMatch support_phrases message_lower then support_result
  else if regexWordMatch general_phrases message_lower then general_result
  else if regexWordMatch greeting_phrases message_lower then greeting_result
  else other_result

/-! ### Completion keywords (`llama_helper.py`) -/

/-- `completion_keywords` of `check_for_completion_keywords`. -/
def completion_keywords : List String :=
  ["finalize", "complete", "done", "finished", "ready", "proceed",
   "start project", "begin", "go ahead", "confirm", "approve",
   "that's all", "that's it", "nothing else", "perfect", "sounds good"]

/-- `check_for_completion_keywords`: any completion keyword is a substring of
the lower-cased message. -/
def check_for_completion_keywords (message : String) : Bool :=
  completion_keywords.any (fun k => pyIn k (pyLower message))

/-! ### Phone normalization (`WhatsSMSService.normalize_to_e164`) -/

/-- Core of `normalize_to_e164` on the character list of the input.  Mirrors
the source: falsy (empty) input is returned as is; otherwise the decision is
made on the digit-only projection: `92`-prefixed of length ≥ 12 gets `+`;
leading `0` of length 11 drops the `0` and gets `+92`; length 10 gets `+92`;
anything else gets `+`. -/
def normalizeCore (l : List Char) : List Char :=
  if l = [] then l
  else if (l.filter Char.isDigit).take 2 = ['9', '2'] ∧ 12 ≤ (l.filter Char.isDigit).length then
    '+' :: l.filter Char.isDigit
  else if (l.filter Char.isDigit).take 1 = ['0'] ∧ (l.filter Char.isDigit).length = 11 then
    '+' :: '9' :: '2' :: (l.filter Char.isDigit).tail
  else if (l.filter Char.isDigit).length = 10 then
    '+' :: '9' :: '2' :: l.filter Char.isDigit
  else '+' :: l.filter Char.isDigit

/-- `WhatsSMSService.normalize_to_e164`. -/
def normalize_to_e164 (phone_number : String) : String :=
  String.mk (normalizeCore phone_number.toList)

/-- Modelled from the spec: the four normalization rules of §4.1, applied
unconditionally to the digit-only projection (the spec's rule text has no
empty-input short-circuit).  Used only to compare the spec's wording with
`normalize_to_e164`. -/
def normalizeRulesSpec (l : List Char) : List Char :=
  if (l.filter Char.isDigit).take 2 = ['9', '2'] ∧ 12 ≤ (l.filter Char.isDigit).length then
    '+' :: l.filter Char.isDigit
  else if (l.filter Char.isDigit).take 1 = ['0'] ∧ (l.filter Char.isDigit).length = 11 then
    '+' :: '9' :: '2' :: (l.filter Char.isDigit).tail
  else if (l.filter Char.isDigit).length = 10 then
    '+' :: '9' :: '2' :: (l.filter Char.isDigit)
  else '+' :: l.filter Char.isDigit

/-- The spec's §4.1 rules as a function on strings. -/
def normalize_spec_rules (phone_number : String) : String :=
  String.mk (normalizeRulesSpec phone_number.toList)

/-! ### Data model (`models.py`) -/

/-- `ConversationMessage`: one turn.  `datetime` instants are modelled as
`Nat`. -/
structure ConversationMessage where
  role : String
  message : String
  timestamp : Nat
  deriving DecidableEq, Repr

/-- `WhatsAppConversation`: the per-phone-number record. -/
structure WhatsAppConversation where
  id : Option String
  client_name : Option String
  phone_number : String
  conversation : List ConversationMessage
  status : String
  messages_used : Nat
  created_at : Nat
  updated_at : Nat
  deriving DecidableEq, Repr

/-! ### Team alerts (`notify_team`) -/

/-- Arguments of one `notify_team` invocation. -/
structure TeamAlert where
  message : String
  phone_number : Option String
  client_name : Option String
  project_details : Option String
  deriving DecidableEq, Repr

/-- The `team_message` string `notify_team` builds from its arguments; the
optional sections are included exactly when the corresponding argument is
truthy. -/
def notify_team_message (message : String)
    (phone_number client_name project_details : Option String) : String :=
  let t0 := "🚨 TEAM ALERT 🚨\n\n" ++ message
  let t1 := if pyTruthy client_name then t0 ++ "\n👤 Client Name: " ++ pyOptStr client_name else t0
  let t2 := if pyTruthy phone_number then t1 ++ "\n📱 Client Phone: " ++ pyOptStr phone_number else t1
  let t3 := if pyTruthy project_details then t2 ++ "\n💼 Project Details: " ++ pyOptStr project_details else t2
  t3 ++ "\n\n🤖 Bot Response: Please reach out to this client for further discussion about their project requirements."

/-- The outbound text of an alert. -/
def TeamAlert.render (a : TeamAlert) : String :=
  notify_team_message a.message a.phone_number a.client_name a.project_details

/-! ### Conversation summary (`format_conversation_summary`) -/

/-- One line of the transcript section: emoji, `role.title()`, the text. -/
def render_turn (msg : ConversationMessage) : String :=
  (if msg.role == "client" then "👤" else "🤖") ++ " " ++ pyTitle msg.role ++ ": " ++ msg.message ++ "\n"

/-- `WhatsSMSService.format_conversation_summary`: header lines, then the
turns appended one by one in list (chronological) order. -/
def format_conversation_summary (conversation : WhatsAppConversation) : String :=
  let summary :=
    "Client: " ++ pyOptStr conversation.client_name ++ "\n" ++
    "Phone: " ++ conversation.phone_number ++ "\n" ++
    "Messages: " ++ toString conversation.messages_used ++ "\n" ++
    "Status: " ++ conversation.status ++ "\n\n" ++
    "Conversation:\n"
  conversation.conversation.foldl (fun acc m => acc ++ render_turn m) summary

/-- The header part of `format_conversation_summary`, before the turns. -/
def summary_header (conversation : WhatsAppConversation) : String :=
  "Client: " ++ pyOptStr conversation.client_name ++ "\n" ++
  "Phone: " ++ conversation.phone_number ++ "\n" ++
  "Messages: " ++ toString conversation.messages_used ++ "\n" ++
  "Status: " ++ conversation.status ++ "\n\n" ++
  "Conversation:\n"

/-- The transcript section: every turn rendered, in list order. -/
def render_turns : List ConversationMessage → String
  | [] => ""
  | m :: t => render_turn m ++ render_turns t

/-! ### Workflow engine (`handle_incoming_message`, lines 282–370)

The decision ladder is pure apart from the recorded collaborator effects, so
it is embedded as `process_message`: it consumes the fetched conversation
record and the inbound text and produces the mutated record (both turns
appended), the reply text, and the `notify_team` calls made on the way.  The
LLM collaborator's reply is an explicit parameter (`llamaReply`), standing for
whatever string `get_llama_response` returns (including its apology
fallbacks). -/

/-- Keyword list of the human-escalation branch (source lines 319–322). -/
def escalation_keywords : List String :=
  ["team reach out", "contact me", "call me", "reach out", "team contact",
   "speak with team", "talk to team", "team call", "contact team", "team reach"]

/-- Branch 1 guard: `not conversation.client_name and conversation.messages_used == 1`
(evaluated after the increment). -/
def cond_first_message (conversation : WhatsAppConversation) : Bool :=
  !pyTruthy conversation.client_name && conversation.messages_used == 1

/-- Branch 2 guard: `not conversation.client_name or conversation.client_name == "Unknown"`. -/
def cond_name_capture (conversation : WhatsAppConversation) : Bool :=
  !pyTruthy conversation.client_name || conversation.client_name == some "Unknown"

/-- Branch 3 guard: `classification["confidence"] >= 0.8` (tenths scale). -/
def cond_high_confidence (classification : ClassificationResult) : Bool :=
  decide (8 ≤ classification.confidence)

/-- Branch 4 guard: any escalation keyword is a substring of the lower-cased
message. -/
def cond_escalation (message_content : String) : Bool :=
  escalation_keywords.any (fun k => pyIn k (pyLower message_content))

/-- Branch 6 guard: `conversation.messages_used >= 20`. -/
def cond_limit (conversation : WhatsAppConversation) : Bool :=
  decide (20 ≤ conversation.messages_used)

/-- Lines 282–287: append the inbound client turn and bump `messages_used`,
before any branch guard is evaluated. -/
def post_increment (conversation0 : WhatsAppConversation) (message_content : String)
    (now : Nat) : WhatsAppConversation :=
  { conversation0 with
      conversation :=
        conversation0.conversation ++ [{ role := "client", message := message_content, timestamp := now }]
      messages_used := conversation0.messages_used + 1 }

/-- What `process_message` yields: the mutated record, the reply text, the
team alerts fired along the way. -/
structure HandleResult where
  conv : WhatsAppConversation
  response_message : String
  alerts : List TeamAlert
  deriving DecidableEq, Repr

/-- The `if/elif` decision ladder of `handle_incoming_message` followed by the
assistant-turn append: branch guards in source order, first match wins. -/
def process_message (conversation0 : WhatsAppConversation)
    (phone_number message_content llamaReply : String) (now : Nat) : HandleResult :=
  let conversation := post_increment conversation0 message_content now
  let classification := classify_message message_content
  let mid : HandleResult :=
    if cond_first_message conversation then
      { conv := { conversation with client_name := some "Unknown" }
        response_message := "Hello! What is your name, sir?"
        alerts := [] }
    else if cond_name_capture conversation then
      let nm := pyStrip message_content
      { conv := { conversation with client_name := some nm }
        response_message := "Nice to meet you, " ++ nm ++ "! I'm here to help you with your project requirements. What type of app or website are you looking to build?"
        alerts := [] }
    else if cond_high_confidence classification then
      { conv := conversation
        response_message := classification.response
        alerts :=
          if classification.type == "pricing" then
            [{ message := "💰 PRICING INQUIRY\n\nMessage: " ++ message_content
               phone_number := some phone_number
               client_name := conversation.client_name
               project_details := some "Client is asking about pricing for our services" }]
          else [] }
    else if cond_escalation message_content then
      { conv := conversation
        response_message := "Perfect! I'll have our team reach out to you shortly to discuss your project requirements in detail."
        alerts :=
          [{ message := "📞 CLIENT WANTS TEAM CONTACT\n\nMessage: " ++ message_content
             phone_number := some phone_number
             client_name := conversation.client_name
             project_details := some "Client specifically requested team to reach out for project discussion" }] }
    else if check_for_completion_keywords message_content then
      let finalized := { conversation with status := "finalized" }
      { conv := finalized
        response_message := "Great! Your project description has been saved. Our team will reach out to you soon."
        alerts :=
          [{ message := "✅ PROJECT FINALIZED\n\n" ++ format_conversation_summary finalized
             phone_number := some phone_number
             client_name := finalized.client_name
             project_details := some "Client has finalized their project requirements" }] }
    else if cond_limit conversation then
      { conv := conversation
        response_message := "You've reached the message limit. Our team will contact you shortly."
        alerts :=
          [{ message := "⚠️ MESSAGE LIMIT REACHED\n\nMessages used: " ++ toString conversation.messages_used
             phone_number := some phone_number
             client_name := conversation.client_name
             project_details := some "Client has reached the message limit and needs team follow-up" }] }
    else
      { conv := conversation
        response_message := llamaReply
        alerts := [] }
  { mid with
      conv := { mid.conv with
        conversation :=
          mid.conv.conversation ++ [{ role := "assistant", message := mid.response_message, timestamp := now }] } }

/-- Guard of the `i`-th rung of the ladder (0-based, in source order; the
final rung, the completion-client fallback, is unconditional). -/
def branch_condition (conversation : WhatsAppConversation) (message_content : String) : Nat → Bool
  | 0 => cond_first_message conversation
  | 1 => cond_name_capture conversation
  | 2 => cond_high_confidence (classify_message message_content)
  | 3 => cond_escalation message_content
  | 4 => check_for_completion_keywords message_content
  | 5 => cond_limit conversation
  | _ => true

/-- Index of the rung the `if/elif` chain dispatches to. -/
def selected_branch (conversation : WhatsAppConversation) (message_content : String) : Nat :=
  if cond_first_message conversation then 0
  else if cond_name_capture conversation then 1
  else if cond_high_confidence (classify_message message_content) then 2
  else if cond_escalation message_content then 3
  else if check_for_completion_keywords message_content then 4
  else if cond_limit conversation then 5
  else 6

/-- Reply text each rung produces, for relating `selected_branch` to the
engine's output. -/
def branch_reply (message_content llamaReply : String) : Nat → String
  | 0 => "Hello! What is your name, sir?"
  | 1 => "Nice to meet you, " ++ pyStrip message_content ++ "! I'm here to help you with your project requirements. What type of app or website are you looking to build?"
  | 2 => (classify_message message_content).response
  | 3 => "Perfect! I'll have our team reach out to you shortly to discuss your project requirements in detail."
  | 4 => "Great! Your project description has been saved. Our team will reach out to you soon."
  | 5 => "You've reached the message limit. Our team will contact you shortly."
  | _ => llamaReply

/-! ### Store and full handler -/

/-- The `whatsapp_conversations` collection: a partial map keyed by `_id`. -/
def Store : Type := String → Option WhatsAppConversation

/-- The record `get_or_create_conversation` builds when no document exists
(`WhatsAppConversation(phone_number=normalized, conversation=[], status="pending",
messages_used=0)` with default timestamps). -/
def new_conversation (normalized_phone : String) (now : Nat) : WhatsAppConversation :=
  { id := none
    client_name := none
    phone_number := normalized_phone
    conversation := []
    status := "pending"
    messages_used := 0
    created_at := now
    updated_at := now }

/-- `get_or_create_conversation`: normalize the key, fetch the document, or
create and insert a fresh pending record. -/
def get_or_create_conversation (store : Store) (phone_number : String) (now : Nat) :
    WhatsAppConversation × Store :=
  let normalized_phone := normalize_to_e164 phone_number
  match store normalized_phone with
  | some doc => ({ doc with id := some normalized_phone }, store)
  | none =>
      let conv := new_conversation normalized_phone now
      (conv, fun k => if k = normalized_phone then some { conv with id := some normalized_phone } else store k)

/-- `save_conversation`: refresh `updated_at`, then `replace_one` with upsert
keyed by `conversation.phone_number`. -/
def save_conversation (store : Store) (conversation : WhatsAppConversation) (now : Nat) : Store :=
  let updated := { conversation with updated_at := now }
  fun k => if k = conversation.phone_number then some { updated with id := some conversation.phone_number } else store k

/-- The full `handle_incoming_message`, outcomes of the fallible collaborators
made explicit: `save_ok` is whether the datastore write succeeds (on failure
`save_conversation` re-raises, the outer `except` logs and returns `False`
without attempting delivery), `send_ok` is the boolean
`send_whatsapp_message` returns, `notify_ok` the boolean `notify_team`
returns (computed and then discarded by the caller).  Result: the returned
boolean, the resulting store, and the outcomes of the team alerts fired. -/
def handle_incoming_message (store : Store)
    (phone_number message_content llamaReply : String) (now : Nat)
    (save_ok send_ok notify_ok : Bool) : Bool × Store × List Bool :=
  let gc := get_or_create_conversation store phone_number now
  let r := process_message gc.1 phone_number message_content llamaReply now
  let alert_results := r.alerts.map (fun _ => notify_ok)
  if save_ok then (send_ok, save_conversation gc.2 r.conv now, alert_results)
  else (false, gc.2, alert_results)


/-! ### Concrete fixtures used by the witness theorems -/

/-- A mid-conversation record with a captured client name, 19 messages used. -/
def budget_fixture : WhatsAppConversation :=
  { id := none
    client_name := some "John"
    phone_number := "+923001112233"
    conversation := []
    status := "pending"
    messages_used := 19
    created_at := 0
    updated_at := 0 }

/-- A pending conversation with a captured name and one prior client turn. -/
def finalize_fixture : WhatsAppConversation :=
  { id := none
    client_name := some "John Smith"
    phone_number := "+923001112233"
    conversation := [{ role := "client", message := "a chat app please", timestamp := 1 }]
    status := "pending"
    messages_used := 3
    created_at := 0
    updated_at := 0 }

/-- An already-finalized conversation record. -/
def finalized_fixture : WhatsAppConversation :=
  { finalize_fixture with status := "finalized" }

/-- A record whose phone number is already canonical E.164. -/
def roundtrip_fixture : WhatsAppConversation :=
  { id := none
    client_name := some "Jane"
    phone_number := "+923001112233"
    conversation :=
      [{ role := "client", message := "hello", timestamp := 1 },
       { role := "assistant", message := "Hello! What is your name, sir?", timestamp := 1 }]
    status := "pending"
    messages_used := 1
    created_at := 0
    updated_at := 0 }

/-! ## Helper lemmas -/

/-- Filtering an all-digit list by `Char.isDigit` is the identity. -/
theorem filter_isDigit_of_all (d : List Char) (hd : ∀ c ∈ d, Char.isDigit c) :
    d.filter Char.isDigit = d :=
  List.filter_eq_self.mpr hd

/-- Every character of the digit projection is a digit. -/
theorem all_digits_filter (l : List Char) :
    ∀ c ∈ l.filter Char.isDigit, Char.isDigit c :=
  fun _ hc => (List.mem_filter.mp hc).2

/-- `normalizeCore` fixes `'+'` followed by an all-digit tail that lands in
rule 1 or in the fallback rule. -/
theorem normalizeCore_plus_digits (d : List Char) (hd : ∀ c ∈ d, Char.isDigit c)
    (h : (d.take 2 = ['9', '2'] ∧ 12 ≤ d.length)
        ∨ (¬(d.take 2 = ['9', '2'] ∧ 12 ≤ d.length)
            ∧ ¬(d.take 1 = ['0'] ∧ d.length = 11) ∧ d.length ≠ 10)) :
    normalizeCore ('+' :: d) = '+' :: d := by
  have hne : ('+' :: d) ≠ ([] : List Char) := by simp
  have hfil : ('+' :: d).filter Char.isDigit = d := by
    have h1 : Char.isDigit '+' = false := by decide
    simp [h1, filter_isDigit_of_all d hd]
  unfold normalizeCore
  rw [if_neg hne]
  rw [hfil]
  rcases h with h1 | ⟨h1, h2, h3⟩
  · rw [if_pos h1]
  · rw [if_neg h1, if_neg h2, if_neg h3]

/-- `normalizeCore` fixes `'+' :: '9' :: '2' ::` a ten-digit tail (the shape
rules 2 and 3 produce): such a value re-enters through rule 1. -/
theorem normalizeCore_plus_92 (t : List Char) (ht : ∀ c ∈ t, Char.isDigit c)
    (hlen : t.length = 10) :
    normalizeCore ('+' :: '9' :: '2' :: t) = '+' :: '9' :: '2' :: t := by
  have hne : ('+' :: '9' :: '2' :: t) ≠ ([] : List Char) := by simp
  have hfil : ('+' :: '9' :: '2' :: t).filter Char.isDigit = '9' :: '2' :: t := by
    have h1 : Char.isDigit '+' = false := by decide
    have h2 : Char.isDigit '9' = true := by decide
    have h3 : Char.isDigit '2' = true := by decide
    simp [h1, h2, h3, filter_isDigit_of_all t ht]
  unfold normalizeCore
  rw [if_neg hne]
  rw [hfil]
  have hcond : ('9' :: '2' :: t).take 2 = ['9', '2'] ∧ 12 ≤ ('9' :: '2' :: t).length := by
    refine ⟨rfl, ?_⟩
    simp [hlen]
  rw [if_pos hcond]

/-- `normalizeCore` is idempotent: each of its four outcomes re-normalizes to
itself. -/
theorem normalizeCore_idem (l : List Char) :
    normalizeCore (normalizeCore l) = normalizeCore l := by
  by_cases h0 : l = []
  · subst h0
    simp [normalizeCore]
  · have hd := all_digits_filter l
    have hcore : normalizeCore l =
        if (l.filter Char.isDigit).take 2 = ['9', '2'] ∧ 12 ≤ (l.filter Char.isDigit).length then
          '+' :: l.filter Char.isDigit
        else if (l.filter Char.isDigit).take 1 = ['0'] ∧ (l.filter Char.isDigit).length = 11 then
          '+' :: '9' :: '2' :: (l.filter Char.isDigit).tail
        else if (l.filter Char.isDigit).length = 10 then
          '+' :: '9' :: '2' :: l.filter Char.isDigit
        else '+' :: l.filter Char.isDigit := by
      unfold normalizeCore
      rw [if_neg h0]
    by_cases h1 : (l.filter Char.isDigit).take 2 = ['9', '2'] ∧ 12 ≤ (l.filter Char.isDigit).length
    · rw [hcore, if_pos h1]
      exact normalizeCore_plus_digits _ hd (Or.inl h1)
    · by_cases h2 : (l.filter Char.isDigit).take 1 = ['0'] ∧ (l.filter Char.isDigit).length = 11
      · rw [hcore, if_neg h1, if_pos h2]
        apply normalizeCore_plus_92
        · exact fun c hc => hd c (List.mem_of_mem_tail hc)
        · rw [List.length_tail, h2.2]
      · by_cases h3 : (l.filter Char.isDigit).length = 10
        · rw [hcore, if_neg h1, if_neg h2, if_pos h3]
          exact normalizeCore_plus_92 _ hd h3
        · rw [hcore, if_neg h1, if_neg h2, if_neg h3]
          exact normalizeCore_plus_digits _ hd (Or.inr ⟨h1, h2, h3⟩)

/-- A nonempty string has a nonempty character list. -/
theorem string_toList_ne_nil {s : String} (h : s ≠ "") : s.toList ≠ [] := by
  intro hnil
  apply h
  cases s with
  | mk d =>
      cases hnil
      rfl

/-- A first-match index over a Boolean predicate on `Nat` is unique. -/
theorem first_match_unique (f : Nat → Bool) (i j : Nat) (hi : f i = true)
    (hbi : ∀ k < i, f k = false) (hj : f j = true) (hbj : ∀ k < j, f k = false) : i = j := by
  rcases lt_trichotomy i j with h | h | h
  · exact absurd hi (by simp [hbj i h])
  · exact h
  · exact absurd hj (by simp [hbi j h])

/-- Folding turn renderings over an accumulator is the accumulator followed by
the concatenation of the renderings in list order. -/
theorem foldl_render_turns (l : List ConversationMessage) (init : String) :
    l.foldl (fun acc m => acc ++ render_turn m) init = init ++ render_turns l := by
  induction l generalizing init with
  | nil => simp [render_turns]
  | cons m t ih => simp [render_turns, ih, String.append_assoc]

/-- The conversation summary is its header followed by every turn rendered in
chronological order. -/
theorem format_summary_split (c : WhatsAppConversation) :
    format_conversation_summary c = summary_header c ++ render_turns c.conversation := by
  simp only [format_conversation_summary, summary_header]
  rw [foldl_render_turns]

/-! ## Claim theorems -/

/-- C1: on every inbound message the engine's `if/elif` ladder selects exactly
one reply branch, testing the seven guards in source order with the first
match winning: the selected index satisfies its guard, every earlier guard
fails, any index whose guard holds while all earlier ones fail is the
selected one, and the engine's reply is the selected branch's reply. -/
theorem C1_decision_ladder_first_match (conversation0 : WhatsAppConversation)
    (phone_number message_content llamaReply : String) (now : Nat) :
    branch_condition (post_increment conversation0 message_content now) message_content
        (selected_branch (post_increment conversation0 message_content now) message_content) = true
    ∧ (∀ j < selected_branch (post_increment conversation0 message_content now) message_content,
        branch_condition (post_increment conversation0 message_content now) message_content j = false)
    ∧ selected_branch (post_increment conversation0 message_content now) message_content ≤ 6
    ∧ (∀ j, branch_condition (post_increment conversation0 message_content now) message_content j = true →
        (∀ k < j, branch_condition (post_increment conversation0 message_content now) message_content k = false) →
        j = selected_branch (post_increment conversation0 message_content now) message_content)
    ∧ (process_message conversation0 phone_number message_content llamaReply now).response_message
        = branch_reply message_content llamaReply
            (selected_branch (post_increment conversation0 message_content now) message_content) := by
  have main :
      branch_condition (post_increment conversation0 message_content now) message_content
          (selected_branch (post_increment conversation0 message_content now) message_content) = true
      ∧ (∀ j < selected_branch (post_increment conversation0 message_content now) message_content,
          branch_condition (post_increment conversation0 message_content now) message_content j = false)
      ∧ selected_branch (post_increment conversation0 message_content now) message_content ≤ 6
      ∧ (process_message conversation0 phone_number message_content llamaReply now).response_message
          = branch_reply message_content llamaReply
              (selected_branch (post_increment conversation0 message_content now) message_content) := by
    simp only [process_message, selected_branch]
    split_ifs with h1 h2 h3 h4 h5 h6 <;>
      refine ⟨?_, ?_, ?_, ?_⟩ <;>
      first
        | (simp [branch_condition, *]; done)
        | (intro j hj; interval_cases j <;> simp_all [branch_condition]; done)
        | (norm_num; done)
        | simp [branch_reply]
  exact ⟨main.1, main.2.1, main.2.2.1,
    fun j hj hbj => (first_match_unique _ _ _ main.1 main.2.1 hj hbj).symm,
    main.2.2.2⟩

/-- C2 (counterexample): the claim says a persistence failure never changes
the returned boolean, but on the same inputs with delivery succeeding, a
failing store save makes `handle_incoming_message` return `false` (the outer
`except` catches the re-raised error and skips delivery) where a succeeding
save makes it return `true`. -/
theorem C2_persistence_failure_changes_return :
    (handle_incoming_message (fun _ => none) "+923001112233" "x y z w" "llm reply" 0 false true true).1 = false
    ∧ (handle_incoming_message (fun _ => none) "+923001112233" "x y z w" "llm reply" 0 true true true).1 = true := by
  constructor
  · decide
  · decide

/-- C2 (amended): when the store save succeeds the boolean returned by
`handle_incoming_message` is exactly the delivery outcome, and a team-alert
failure never changes it; but a persistence failure is caught and forces the
return value to `false` without attempting delivery (it is converted, not
raised to the caller). -/
theorem C2_return_value_semantics (store : Store)
    (phone_number message_content llamaReply : String) (now : Nat) (send_ok n1 n2 : Bool) :
    (handle_incoming_message store phone_number message_content llamaReply now true send_ok n1).1 = send_ok
    ∧ (handle_incoming_message store phone_number message_content llamaReply now false send_ok n1).1 = false
    ∧ (∀ save_ok : Bool,
        (handle_incoming_message store phone_number message_content llamaReply now save_ok send_ok n1).1
          = (handle_incoming_message store phone_number message_content llamaReply now save_ok send_ok n2).1) := by
  refine ⟨rfl, rfl, ?_⟩
  intro save_ok
  cases save_ok <;> rfl

/-- C3: `messages_used` is incremented by exactly one before the branch
guards on every inbound message, and for a conversation with a proper client
name whose message matches no higher-priority branch, the 20th inbound
message (19 used before, `≥ 20` after increment) gets the limit-reached reply
and one team alert, while the 19th falls through to the completion client
with no alert. -/
theorem C3_message_budget_twentieth :
    (∀ (conversation0 : WhatsAppConversation) (phone_number message_content llamaReply : String)
        (now : Nat),
      (process_message conversation0 phone_number message_content llamaReply now).conv.messages_used
        = conversation0.messages_used + 1)
    ∧ (∀ (conversation0 : WhatsAppConversation) (phone_number message_content llamaReply : String)
        (now : Nat) (nm : String),
      conversation0.client_name = some nm → nm ≠ "" → nm ≠ "Unknown" →
      cond_high_confidence (classify_message message_content) = false →
      cond_escalation message_content = false →
      check_for_completion_keywords message_content = false →
      ((conversation0.messages_used = 19 →
          (process_message conversation0 phone_number message_content llamaReply now).response_message
            = "You've reached the message limit. Our team will contact you shortly."
          ∧ (process_message conversation0 phone_number message_content llamaReply now).alerts
            = [{ message := "⚠️ MESSAGE LIMIT REACHED\n\nMessages used: 20"
                 phone_number := some phone_number
                 client_name := some nm
                 project_details := some "Client has reached the message limit and needs team follow-up" }])
        ∧ (conversation0.messages_used = 18 →
          (process_message conversation0 phone_number message_content llamaReply now).response_message
            = llamaReply
          ∧ (process_message conversation0 phone_number message_content llamaReply now).alerts = []))) := by
  constructor
  · intro c p m l now
    simp only [process_message, post_increment]
    split_ifs <;> rfl
  · intro c p m l now nm hname hne hnu hconf hesc hcomp
    have hc1 : cond_first_message (post_increment c m now) = false := by
      simp [cond_first_message, post_increment, pyTruthy, hname, hne]
    have hc2 : cond_name_capture (post_increment c m now) = false := by
      simp [cond_name_capture, post_increment, pyTruthy, hname, hne, hnu]
    constructor
    · intro h19
      have hlim : cond_limit (post_increment c m now) = true := by
        simp [cond_limit, post_increment, h19]
      constructor
      · simp [process_message, hc1, hc2, hconf, hesc, hcomp, hlim]
      · have htos : ("⚠️ MESSAGE LIMIT REACHED\n\nMessages used: " ++ toString (20 : Nat))
            = "⚠️ MESSAGE LIMIT REACHED\n\nMessages used: 20" := by decide
        simp [process_message, post_increment, cond_first_message, cond_name_capture, cond_limit,
          pyTruthy, hname, hne, hnu, hconf, hesc, hcomp, h19, htos]
    · intro h18
      have hlim : cond_limit (post_increment c m now) = false := by
        simp [cond_limit, post_increment, h18]
      constructor
      · simp [process_message, hc1, hc2, hconf, hesc, hcomp, hlim]
      · simp [process_message, hc1, hc2, hconf, hesc, hcomp, hlim]

/-- C3 (witness): on a 19-messages-used conversation with client name "John",
the message "zzz qqq" (no keyword, low confidence) yields the limit-reached
reply; at 18 used, the same message is answered by the completion client. -/
theorem C3_message_budget_twentieth_witness :
    (process_message budget_fixture "+923001112233" "zzz qqq" "llm reply" 3).response_message
      = "You've reached the message limit. Our team will contact you shortly."
    ∧ (process_message { budget_fixture with messages_used := 18 }
        "+923001112233" "zzz qqq" "llm reply" 3).response_message = "llm reply" :=
  ⟨((C3_message_budget_twentieth.2 budget_fixture "+923001112233" "zzz qqq" "llm reply" 3 "John"
      rfl (by decide) (by decide) (by decide) (by decide) (by decide)).1 rfl).1,
   ((C3_message_budget_twentieth.2 { budget_fixture with messages_used := 18 }
      "+923001112233" "zzz qqq" "llm reply" 3 "John"
      rfl (by decide) (by decide) (by decide) (by decide) (by decide)).2 rfl).1⟩

/-- C4: with a proper client name set and no higher-priority branch matching,
a completion-keyword message transitions `status` from `"pending"` to
`"finalized"`, replies with the finalization acknowledgment, and fires one
team alert whose payload carries the conversation summary — which is the
header followed by every turn (all prior turns plus the just-appended inbound
one) rendered in chronological order. -/
theorem C4_completion_finalizes (conversation0 : WhatsAppConversation)
    (phone_number message_content llamaReply : String) (now : Nat) (nm : String)
    (hname : conversation0.client_name = some nm) (hne : nm ≠ "") (hnu : nm ≠ "Unknown")
    (hpend : conversation0.status = "pending")
    (hconf : cond_high_confidence (classify_message message_content) = false)
    (hesc : cond_escalation message_content = false)
    (hcomp : check_for_completion_keywords message_content = true) :
    conversation0.status = "pending"
    ∧ (process_message conversation0 phone_number message_content llamaReply now).conv.status = "finalized"
    ∧ (process_message conversation0 phone_number message_content llamaReply now).response_message
        = "Great! Your project description has been saved. Our team will reach out to you soon."
    ∧ (process_message conversation0 phone_number message_content llamaReply now).alerts
        = [{ message := "✅ PROJECT FINALIZED\n\n"
                ++ format_conversation_summary
                    { post_increment conversation0 message_content now with status := "finalized" }
             phone_number := some phone_number
             client_name := some nm
             project_details := some "Client has finalized their project requirements" }]
    ∧ format_conversation_summary
          { post_increment conversation0 message_content now with status := "finalized" }
        = summary_header { post_increment conversation0 message_content now with status := "finalized" }
          ++ render_turns (conversation0.conversation
              ++ [{ role := "client", message := message_content, timestamp := now }]) := by
  have hc1 : cond_first_message (post_increment conversation0 message_content now) = false := by
    simp [cond_first_message, post_increment, pyTruthy, hname, hne]
  have hc2 : cond_name_capture (post_increment conversation0 message_content now) = false := by
    simp [cond_name_capture, post_increment, pyTruthy, hname, hne, hnu]
  refine ⟨hpend, ?_, ?_, ?_, ?_⟩
  · simp [process_message, hc1, hc2, hconf, hesc, hcomp]
  · simp [process_message, hc1, hc2, hconf, hesc, hcomp]
  · simp [process_message, post_increment, cond_first_message, cond_name_capture,
      pyTruthy, hname, hne, hnu, hconf, hesc, hcomp]
  · rw [format_summary_split]
    simp [post_increment]

/-- C4 (witness): the message "sounds good, let's proceed" on a pending
conversation with client name "John Smith" finalizes the record. -/
theorem C4_completion_finalizes_witness :
    (process_message finalize_fixture "+923001112233" "sounds good, let's proceed" "llm reply" 4).conv.status
      = "finalized" :=
  (C4_completion_finalizes finalize_fixture "+923001112233" "sounds good, let's proceed"
    "llm reply" 4 "John Smith" rfl (by decide) (by decide) rfl
    (by decide) (by decide) (by decide)).2.1

/-- C5: for a brand-new conversation record, the first inbound message leaves
`messages_used = 1` and `client_name = "Unknown"` and replies asking for the
name; the second inbound message stores its stripped text as the client name
and replies with the personalized project-inquiry prompt. -/
theorem C5_name_collection_flow (normalized_phone phone1 phone2 message1 message2 llama1 llama2 : String)
    (t0 t1 t2 : Nat) :
    (process_message (new_conversation normalized_phone t0) phone1 message1 llama1 t1).conv.messages_used = 1
    ∧ (process_message (new_conversation normalized_phone t0) phone1 message1 llama1 t1).conv.client_name = some "Unknown"
    ∧ (process_message (new_conversation normalized_phone t0) phone1 message1 llama1 t1).response_message
        = "Hello! What is your name, sir?"
    ∧ (process_message (process_message (new_conversation normalized_phone t0) phone1 message1 llama1 t1).conv
          phone2 message2 llama2 t2).conv.client_name = some (pyStrip message2)
    ∧ (process_message (process_message (new_conversation normalized_phone t0) phone1 message1 llama1 t1).conv
          phone2 message2 llama2 t2).response_message
        = "Nice to meet you, " ++ pyStrip message2 ++ "! I'm here to help you with your project requirements. What type of app or website are you looking to build?" := by
  have h1conv : (process_message (new_conversation normalized_phone t0) phone1 message1 llama1 t1).conv =
      { id := none
        client_name := some "Unknown"
        phone_number := normalized_phone
        conversation :=
          [{ role := "client", message := message1, timestamp := t1 },
           { role := "assistant", message := "Hello! What is your name, sir?", timestamp := t1 }]
        status := "pending"
        messages_used := 1
        created_at := t0
        updated_at := t0 } := by
    simp [process_message, post_increment, new_conversation, cond_first_message, pyTruthy]
  have h1resp : (process_message (new_conversation normalized_phone t0) phone1 message1 llama1 t1).response_message
      = "Hello! What is your name, sir?" := by
    simp [process_message, post_increment, new_conversation, cond_first_message, pyTruthy]
  rw [h1conv, h1resp]
  refine ⟨rfl, rfl, rfl, ?_, ?_⟩ <;>
    simp [process_message, post_increment, cond_first_message, cond_name_capture, pyTruthy]

/-- C6: `classify_message` is a total function (hence deterministic and pure);
its value is always one of the five fixed results carrying type, canned
response and confidence; the groups are consulted in the order pricing,
support, general, greeting with first match winning and `other_result`
(confidence 0.5) as the default; and "how much does support cost" classifies
as pricing, not support. -/
theorem C6_classifier_total_ordered (s : String) :
    (classify_message s = pricing_result ∨ classify_message s = support_result
      ∨ classify_message s = general_result ∨ classify_message s = greeting_result
      ∨ classify_message s = other_result)
    ∧ (regexWordMatch pricing_phrases (pyStrip (pyLower s)) = true →
        classify_message s = pricing_result)
    ∧ (regexWordMatch pricing_phrases (pyStrip (pyLower s)) = false →
        regexWordMatch support_phrases (pyStrip (pyLower s)) = true →
        classify_message s = support_result)
    ∧ (regexWordMatch pricing_phrases (pyStrip (pyLower s)) = false →
        regexWordMatch support_phrases (pyStrip (pyLower s)) = false →
        regexWordMatch general_phrases (pyStrip (pyLower s)) = true →
        classify_message s = general_result)
    ∧ (regexWordMatch pricing_phrases (pyStrip (pyLower s)) = false →
        regexWordMatch support_phrases (pyStrip (pyLower s)) = false →
        regexWordMatch general_phrases (pyStrip (pyLower s)) = false →
        regexWordMatch greeting_phrases (pyStrip (pyLower s)) = true →
        classify_message s = greeting_result)
    ∧ (regexWordMatch pricing_phrases (pyStrip (pyLower s)) = false →
        regexWordMatch support_phrases (pyStrip (pyLower s)) = false →
        regexWordMatch general_phrases (pyStrip (pyLower s)) = false →
        regexWordMatch greeting_phrases (pyStrip (pyLower s)) = false →
        classify_message s = other_result)
    ∧ classify_message "how much does support cost" = pricing_result := by
  refine ⟨?_, ?_, ?_, ?_, ?_, ?_, by decide⟩
  · simp only [classify_message]
    split_ifs <;> simp
  · intro hp
    simp [classify_message, hp]
  · intro hp hs
    simp [classify_message, hp, hs]
  · intro hp hs hg
    simp [classify_message, hp, hs, hg]
  · intro hp hs hg hgr
    simp [classify_message, hp, hs, hg, hgr]
  · intro hp hs hg hgr
    simp [classify_message, hp, hs, hg, hgr]

/-- C6 (witness): "help me" matches no pricing pattern and a support pattern,
so the priority clause yields the support result. -/
theorem C6_classifier_total_ordered_witness :
    classify_message "help me" = support_result :=
  (C6_classifier_total_ordered "help me").2.2.1 (by decide) (by decide)

/-- C7 (counterexample): the claim's rules, applied to the digit-only
projection of the empty string, would produce "+", but `normalize_to_e164`
returns the empty input unchanged (the falsy-input guard fires before any
rule). -/
theorem C7_empty_input_counterexample :
    normalize_to_e164 "" = "" ∧ normalize_spec_rules "" = "+"
      ∧ normalize_to_e164 "" ≠ normalize_spec_rules "" := by
  refine ⟨by decide, by decide, by decide⟩

/-- C7 (amended): on every nonempty input, `normalize_to_e164` applies
exactly the four rules, in order, to the digit-only projection: `92…` of
length ≥ 12 gets `+`, a leading `0` of length 11 drops the zero and gets
`+92`, length 10 gets `+92`, and anything else gets `+` prefixed unchanged;
the empty input alone is returned as is. -/
theorem C7_rules_on_nonempty (s : String) (h : s ≠ "") :
    normalize_to_e164 s = normalize_spec_rules s := by
  unfold normalize_to_e164 normalize_spec_rules normalizeCore normalizeRulesSpec
  rw [if_neg (string_toList_ne_nil h)]

/-- C7 (witness): the local-format number "03001112233" is nonempty and both
the implementation and the spec rules send it to "+923001112233". -/
theorem C7_rules_on_nonempty_witness :
    normalize_to_e164 "03001112233" = normalize_spec_rules "03001112233"
    ∧ normalize_to_e164 "03001112233" = "+923001112233" :=
  ⟨C7_rules_on_nonempty "03001112233" (by decide), by decide⟩

/-- C8: the status field starts as `"pending"` on creation; a handling step
either leaves it unchanged or sets it to `"finalized"` (so it changes only to
`"finalized"`); on the pending/finalized domain the step is closed and a
finalized record never reverts; saving keeps the saved status, and fetching
returns the stored status (defaulting to `"pending"` for a fresh record). -/
theorem C8_status_monotone :
    (∀ (normalized_phone : String) (now : Nat),
        (new_conversation normalized_phone now).status = "pending")
    ∧ (∀ (conversation0 : WhatsAppConversation) (phone_number message_content llamaReply : String)
          (now : Nat),
        (process_message conversation0 phone_number message_content llamaReply now).conv.status
            = conversation0.status
        ∨ (process_message conversation0 phone_number message_content llamaReply now).conv.status
            = "finalized")
    ∧ (∀ (conversation0 : WhatsAppConversation) (phone_number message_content llamaReply : String)
          (now : Nat),
        conversation0.status = "pending" ∨ conversation0.status = "finalized" →
        ((process_message conversation0 phone_number message_content llamaReply now).conv.status = "pending"
          ∨ (process_message conversation0 phone_number message_content llamaReply now).conv.status = "finalized"))
    ∧ (∀ (conversation0 : WhatsAppConversation) (phone_number message_content llamaReply : String)
          (now : Nat),
        conversation0.status = "finalized" →
        (process_message conversation0 phone_number message_content llamaReply now).conv.status = "finalized")
    ∧ (∀ (store : Store) (conversation : WhatsAppConversation) (now : Nat),
        Option.map (fun r => r.status) (save_conversation store conversation now conversation.phone_number)
          = some conversation.status)
    ∧ (∀ (store : Store) (phone_number : String) (now : Nat),
        (store (normalize_to_e164 phone_number) = none →
          (get_or_create_conversation store phone_number now).1.status = "pending")
        ∧ (∀ doc, store (normalize_to_e164 phone_number) = some doc →
            (get_or_create_conversation store phone_number now).1.status = doc.status)) := by
  have hstep : ∀ (conversation0 : WhatsAppConversation)
      (phone_number message_content llamaReply : String) (now : Nat),
      (process_message conversation0 phone_number message_content llamaReply now).conv.status
          = conversation0.status
      ∨ (process_message conversation0 phone_number message_content llamaReply now).conv.status
          = "finalized" := by
    intro c p m l now
    simp only [process_message, post_increment]
    split_ifs <;> simp
  refine ⟨?_, hstep, ?_, ?_, ?_, ?_⟩
  · intro np now
    rfl
  · intro c p m l now h
    rcases hstep c p m l now with h2 | h2
    · rw [h2]
      exact h
    · right
      exact h2
  · intro c p m l now h
    rcases hstep c p m l now with h2 | h2
    · rw [h2, h]
    · exact h2
  · intro store c now
    simp [save_conversation]
  · intro store p now
    constructor
    · intro hnone
      simp [get_or_create_conversation, hnone, new_conversation]
    · intro doc hdoc
      simp [get_or_create_conversation, hdoc]

/-- C8 (witness): a finalized record stays finalized across a handling step,
and a pending record stays inside the pending/finalized domain. -/
theorem C8_status_monotone_witness :
    (process_message finalized_fixture "+923001112233" "one more thing" "llm reply" 9).conv.status
      = "finalized"
    ∧ ((process_message finalize_fixture "+923001112233" "one more thing" "llm reply" 9).conv.status
        = "pending"
      ∨ (process_message finalize_fixture "+923001112233" "one more thing" "llm reply" 9).conv.status
        = "finalized") :=
  ⟨C8_status_monotone.2.2.2.1 finalized_fixture "+923001112233" "one more thing" "llm reply" 9 rfl,
   C8_status_monotone.2.2.1 finalize_fixture "+923001112233" "one more thing" "llm reply" 9 (Or.inl rfl)⟩

/-- C9: saving a record whose phone number is canonical (fixed by
normalization, as every engine-created record's is) and fetching it back by
that phone number returns an equivalent record: same turn list in the same
order, same `messages_used`, same `status`, same `client_name`, same
`phone_number`. -/
theorem C9_save_fetch_roundtrip (store : Store) (conversation : WhatsAppConversation) (t1 t2 : Nat)
    (h : normalize_to_e164 conversation.phone_number = conversation.phone_number) :
    (get_or_create_conversation (save_conversation store conversation t1) conversation.phone_number t2).1.conversation
        = conversation.conversation
    ∧ (get_or_create_conversation (save_conversation store conversation t1) conversation.phone_number t2).1.messages_used
        = conversation.messages_used
    ∧ (get_or_create_conversation (save_conversation store conversation t1) conversation.phone_number t2).1.status
        = conversation.status
    ∧ (get_or_create_conversation (save_conversation store conversation t1) conversation.phone_number t2).1.client_name
        = conversation.client_name
    ∧ (get_or_create_conversation (save_conversation store conversation t1) conversation.phone_number t2).1.phone_number
        = conversation.phone_number := by
  unfold get_or_create_conversation save_conversation
  simp [h]

/-- C9 (witness): a concrete record keyed by the canonical "+923001112233"
round-trips through save and fetch with its turns, counter, status and name
intact. -/
theorem C9_save_fetch_roundtrip_witness :
    (get_or_create_conversation (save_conversation (fun _ => none) roundtrip_fixture 5)
        roundtrip_fixture.phone_number 7).1.conversation = roundtrip_fixture.conversation
    ∧ (get_or_create_conversation (save_conversation (fun _ => none) roundtrip_fixture 5)
        roundtrip_fixture.phone_number 7).1.status = roundtrip_fixture.status :=
  ⟨(C9_save_fetch_roundtrip (fun _ => none) roundtrip_fixture 5 7 (by decide)).1,
   (C9_save_fetch_roundtrip (fun _ => none) roundtrip_fixture 5 7 (by decide)).2.2.1⟩

/-- C10: `normalize_to_e164` is idempotent on every input string, not only on
already-canonical `+92…` numbers: every output shape (the empty string, `+`
before a rule-1 digit block, `+92` before ten digits, or `+` before any other
digit block) re-normalizes to itself. -/
theorem C10_normalize_idempotent (s : String) :
    normalize_to_e164 (normalize_to_e164 s) = normalize_to_e164 s := by
  unfold normalize_to_e164
  exact congrArg String.mk (normalizeCore_idem s.toList)

/-- C1 (witness): for "sounds good, let's proceed" on a named pending
conversation, index 4 (the completion branch) satisfies its guard with all
earlier guards failing, and the uniqueness clause pins the selected branch to
it. -/
theorem C1_decision_ladder_first_match_witness :
    (4 : Nat) = selected_branch
        (post_increment finalize_fixture "sounds good, let's proceed" 4)
        "sounds good, let's proceed" :=
  (C1_decision_ladder_first_match finalize_fixture "+923001112233"
    "sounds good, let's proceed" "llm reply" 4).2.2.2.1 4 (by decide) (by decide)
